import Mathlib

/-!
Verification of the DAGMC model viewer (src/gui.py): a shallow embedding of
the viewer's data model, tree presenter and selection-to-export mapper,
with theorems settling the specified properties.
-/

namespace Viewer

/-- A Surface entity of the external mesh library: leaf entity with an
identifier and a unique underlying handle used for export. -/
structure Surface where
  id : Nat
  handle : Nat
deriving DecidableEq

/-- The string rendering `str(surf)` that the external library produces for a
Surface; it renders the identifier (the spec's example labels a surface with
id 100 as "Surface 100"). -/
def Surface.str (s : Surface) : String := toString s.id

/-- A Volume entity: has an identifier and references zero or more Surfaces. -/
structure Volume where
  id : Nat
  surfaces : List Surface
deriving DecidableEq

/-- A Group entity: named collection with an identifier, a display name, and
zero or more Volumes. -/
structure Group where
  id : Nat
  name : String
  volumes : List Volume
deriving DecidableEq

/-- `Group.surfaces` of the external library (pydagmc), per the Model Facade
contract: the Surfaces transitively reachable through the Group's Volumes. -/
def Group.surfaces (g : Group) : List Surface :=
  g.volumes.flatMap Volume.surfaces

/-- The loaded mesh container: iterable collections of top-level Groups,
Volumes and Surfaces, in the external library's iteration order. -/
structure DAGModel where
  groups : List Group
  volumes : List Volume
  surfaces : List Surface
deriving DecidableEq

/-- The entity a tree node back-references (stored via `setData(0, UserRole, entity)`
in `create_item`). Category nodes store nothing. -/
inductive Entity where
  | group (g : Group)
  | volume (v : Volume)
  | surface (s : Surface)
deriving DecidableEq

/-- A UI tree node (`QTreeWidgetItem`): a display label, an optional
back-referenced entity, and ordered children. -/
inductive TreeNode where
  | mk (label : String) (data : Option Entity) (children : List TreeNode)

/-- The node's display label. -/
def TreeNode.label : TreeNode → String
  | .mk l _ _ => l

/-- The node's back-referenced entity (`item.data(0, Qt.UserRole)`); `none`
for top-level category nodes, which are built without `create_item`. -/
def TreeNode.data : TreeNode → Option Entity
  | .mk _ d _ => d

/-- The node's children, in insertion (`addChild`) order. -/
def TreeNode.children : TreeNode → List TreeNode
  | .mk _ _ c => c

/-- `create_item(label, entity)`: a node carrying the label and the entity;
children are supplied as the `addChild` calls performed on it. -/
def create_item (label : String) (entity : Entity) (children : List TreeNode) : TreeNode :=
  .mk label (some entity) children

/-- The leaf node built for a surface: `create_item(f"Surface {surf}", surf)`. -/
def surfItem (s : Surface) : TreeNode :=
  create_item ("Surface " ++ s.str) (.surface s) []

/-- The node built for a volume: `create_item(f"Volume {vol.id}", vol)` with
one child per surface of the volume, in iteration order. -/
def volItem (v : Volume) : TreeNode :=
  create_item ("Volume " ++ toString v.id) (.volume v) (v.surfaces.map surfItem)

/-- The node built for a group:
`create_item(f"Group {group.id}: {group.name}", group)` with one child per
volume of the group, fully expanded, in iteration order. -/
def groupItem (g : Group) : TreeNode :=
  create_item ("Group " ++ toString g.id ++ ": " ++ g.name) (.group g)
    (g.volumes.map volItem)

/-- The "Groups" top-level category node and its subtree (gui.py lines 104-114). -/
def groupsRoot (m : DAGModel) : TreeNode :=
  .mk "Groups" none (m.groups.map groupItem)

/-- The "Volumes" top-level category node and its subtree (gui.py lines 116-121). -/
def volumesRoot (m : DAGModel) : TreeNode :=
  .mk "Volumes" none (m.volumes.map volItem)

/-- The "Surfaces" top-level category node and its subtree (gui.py lines 123-126). -/
def surfacesRoot (m : DAGModel) : TreeNode :=
  .mk "Surfaces" none (m.surfaces.map surfItem)

/-- The three top-level items `populate_tree` adds, in `addTopLevelItem` order. -/
def buildTree (m : DAGModel) : List TreeNode :=
  [groupsRoot m, volumesRoot m, surfacesRoot m]

/-- The viewer's state: the currently loaded model (`self.dag_model`), the
top-level items of the tree widget, and the export button's enabled flag. -/
structure ViewerState where
  dag_model : Option DAGModel
  tree : List TreeNode
  exportEnabled : Bool

/-- `populate_tree`: clears the tree widget, returns if no model is loaded,
otherwise builds and adds the three category subtrees. -/
def populate_tree (st : ViewerState) : ViewerState :=
  match st.dag_model with
  | none => { st with tree := [] }
  | some m => { st with tree := buildTree m }

/-- `reset_view`: discards the model, clears the tree, disables export. -/
def reset_view (_st : ViewerState) : ViewerState :=
  { dag_model := none, tree := [], exportEnabled := false }

/-- `update_export_button_state`: sets the export button's enabled flag to
`bool(selected_items)`, i.e. whether the selection is non-empty. -/
def update_export_button_state (st : ViewerState) (selected : List TreeNode) :
    ViewerState :=
  { st with exportEnabled := !selected.isEmpty }

/-- A load failure of the external `DAGModel` constructor (missing,
unreadable or malformed file); propagates as an exception. -/
structure LoadError where
  msg : String
deriving DecidableEq

/-- `load_from_file`: `self.dag_model = DAGModel(file_name)` then
`populate_tree()`. The constructor's outcome is passed in as `load`; when it
raises, the assignment never happens and the error propagates, so the state
is returned unchanged together with the surfaced error. -/
def load_from_file (st : ViewerState) (load : Except LoadError DAGModel) :
    ViewerState × Option LoadError :=
  match load with
  | .error e => (st, some e)
  | .ok m => (populate_tree { st with dag_model := some m }, none)

/-- One pass of the collection loop in `export_selected_entities`
(gui.py lines 150-156): a Group contributes `group.surfaces`, a Volume its
own surfaces, a Surface itself, and a node with no back-referenced entity
contributes nothing (no `isinstance` branch matches `None`). -/
def contributed (d : Option Entity) : List Surface :=
  match d with
  | some (.group g) => g.surfaces
  | some (.volume v) => v.surfaces
  | some (.surface s) => [s]
  | none => []

/-- `surfaces_out`: the concatenation, over the selected items in order, of
each item's contributed surfaces. -/
def surfaces_out (selected : List TreeNode) : List Surface :=
  selected.flatMap (fun item => contributed item.data)

/-- `output_handles = {s.handle for s in surfaces_out}`: the deduplicated set
of underlying handles of the collected surfaces (a Python set). -/
def output_handles (selected : List TreeNode) : Finset Nat :=
  ((surfaces_out selected).map Surface.handle).toFinset

/-- An invocation of the external writer:
`write_file(output_path, output_sets=list(output_handles))`. -/
structure WriteCall where
  path : String
  output_sets : Finset Nat
deriving DecidableEq

/-- `export_selected_entities`: returns early when the selection is empty;
otherwise resolves the handles and, when the save dialog is confirmed with a
path, invokes the writer with the resolved handle set. The result is the
writer invocation performed, if any. -/
def export_selected_entities (selected : List TreeNode)
    (dialogResult : Option String) : Option WriteCall :=
  if selected.isEmpty then none
  else
    match dialogResult with
    | none => none
    | some path => some { path := path, output_sets := output_handles selected }


/-! ## Helper lemmas -/

/-- The collection loop processes the selection front to back. -/
theorem surfaces_out_cons (n : TreeNode) (l : List TreeNode) :
    surfaces_out (n :: l) = contributed n.data ++ surfaces_out l := by
  simp [surfaces_out]

/-- Resolving a single selected node yields the handle set of its contribution. -/
theorem output_handles_singleton (n : TreeNode) :
    output_handles [n] = ((contributed n.data).map Surface.handle).toFinset := by
  simp [output_handles, surfaces_out]

/-- Handle set of surfaces gathered across a list of volumes, as a folded union. -/
theorem handles_flatMap_eq_foldr (vs : List Volume) :
    ((vs.flatMap Volume.surfaces).map Surface.handle).toFinset =
      (vs.map (fun v => (v.surfaces.map Surface.handle).toFinset)).foldr (· ∪ ·) ∅ := by
  induction vs with
  | nil => simp
  | cons v t ih => simp [ih]

/-- Resolving a single volume node yields its own surfaces' handles. -/
theorem output_handles_volItem (v : Volume) :
    output_handles [volItem v] = (v.surfaces.map Surface.handle).toFinset := by
  simp [output_handles_singleton, volItem, create_item, TreeNode.data, contributed]

/-- Resolving a single group node yields the handles of the surfaces reachable
through its volumes. -/
theorem output_handles_groupItem (g : Group) :
    output_handles [groupItem g] =
      ((g.volumes.flatMap Volume.surfaces).map Surface.handle).toFinset := by
  simp [output_handles_singleton, groupItem, create_item, TreeNode.data, contributed,
    Group.surfaces]

/-- The surfaces contributed by a list of plain surface nodes are those
surfaces themselves, in order. -/
theorem surfaces_out_map_surfItem (l : List Surface) :
    surfaces_out (l.map surfItem) = l := by
  induction l with
  | nil => rfl
  | cons s t ih =>
      rw [List.map_cons, surfaces_out_cons, ih]
      simp [surfItem, create_item, TreeNode.data, contributed]

/-! ## Claim theorems -/

/-- C1: for every loaded Model and every Group node G in its tree, resolving
the selection {G} yields exactly the deduplicated union of the handle sets
obtained by resolving each Volume of G selected individually: a Group
contributes exactly the Surfaces transitively reachable through its Volumes. -/
theorem group_resolves_to_union_of_its_volumes (m : DAGModel) (g : Group)
    (_hg : g ∈ m.groups) :
    output_handles [groupItem g] =
      (g.volumes.map (fun v => output_handles [volItem v])).foldr (· ∪ ·) ∅ := by
  have hv : g.volumes.map (fun v => output_handles [volItem v]) =
      g.volumes.map (fun v => (v.surfaces.map Surface.handle).toFinset) :=
    List.map_congr_left fun v _ => output_handles_volItem v
  rw [output_handles_groupItem, hv, handles_flatMap_eq_foldr]

/-- Closed instance of C1 at a concrete model and group. -/
theorem group_resolves_to_union_of_its_volumes_witness :
    (⟨1, "G1", [⟨10, [⟨100, 1000⟩, ⟨101, 1001⟩]⟩]⟩ : Group) ∈
      (DAGModel.mk [⟨1, "G1", [⟨10, [⟨100, 1000⟩, ⟨101, 1001⟩]⟩]⟩]
        [⟨10, [⟨100, 1000⟩, ⟨101, 1001⟩]⟩] [⟨100, 1000⟩, ⟨101, 1001⟩]).groups ∧
    output_handles [groupItem ⟨1, "G1", [⟨10, [⟨100, 1000⟩, ⟨101, 1001⟩]⟩]⟩] =
      (([⟨10, [⟨100, 1000⟩, ⟨101, 1001⟩]⟩] : List Volume).map
        (fun v => output_handles [volItem v])).foldr (· ∪ ·) ∅ :=
  ⟨List.mem_singleton.mpr rfl,
    group_resolves_to_union_of_its_volumes
      (DAGModel.mk [⟨1, "G1", [⟨10, [⟨100, 1000⟩, ⟨101, 1001⟩]⟩]⟩]
        [⟨10, [⟨100, 1000⟩, ⟨101, 1001⟩]⟩] [⟨100, 1000⟩, ⟨101, 1001⟩])
      ⟨1, "G1", [⟨10, [⟨100, 1000⟩, ⟨101, 1001⟩]⟩]⟩ (List.mem_singleton.mpr rfl)⟩

/-- C2: for every loaded Model, resolving the selection of all children of the
"Surfaces" category node returns exactly the set of handles of the Model's
top-level Surfaces; the result is a set, so each handle occurs exactly once. -/
theorem surfaces_children_resolve_to_all_handles (m : DAGModel) :
    output_handles (surfacesRoot m).children =
        (m.surfaces.map Surface.handle).toFinset ∧
      (output_handles (surfacesRoot m).children).val.Nodup := by
  refine ⟨?_, (output_handles (surfacesRoot m).children).nodup⟩
  simp [output_handles, surfacesRoot, TreeNode.children, surfaces_out_map_surfItem]

/-- C3: selecting a Group together with one of its own Volumes yields a handle
set of the same size as selecting the Group alone: surfaces reachable via two
selected parents are deduplicated by underlying handle. -/
theorem group_and_own_volume_no_double_count (g : Group) (v : Volume)
    (hv : v ∈ g.volumes) :
    (output_handles [groupItem g, volItem v]).card =
      (output_handles [groupItem g]).card := by
  have hsub : ((v.surfaces.map Surface.handle).toFinset : Finset Nat) ⊆
      ((g.volumes.flatMap Volume.surfaces).map Surface.handle).toFinset := by
    intro h hh
    simp only [List.mem_toFinset, List.mem_map] at hh ⊢
    obtain ⟨s, hs, rfl⟩ := hh
    exact ⟨s, List.mem_flatMap.mpr ⟨v, hv, hs⟩, rfl⟩
  have hpair : output_handles [groupItem g, volItem v] =
      output_handles [groupItem g] := by
    have : output_handles [groupItem g, volItem v] =
        ((g.volumes.flatMap Volume.surfaces).map Surface.handle).toFinset ∪
          (v.surfaces.map Surface.handle).toFinset := by
      simp [output_handles, surfaces_out_cons, groupItem, volItem, create_item,
        TreeNode.data, contributed, Group.surfaces, surfaces_out]
    rw [this, Finset.union_eq_left.mpr hsub, output_handles_groupItem]
  rw [hpair]

/-- Closed instance of C3 at a concrete model: Group "G1" with Volume 10
holding Surfaces 100 and 101, per the spec scenario. -/
theorem group_and_own_volume_no_double_count_witness :
    (⟨10, [⟨100, 1000⟩, ⟨101, 1001⟩]⟩ : Volume) ∈
      (Group.mk 1 "G1" [⟨10, [⟨100, 1000⟩, ⟨101, 1001⟩]⟩]).volumes ∧
    (output_handles [groupItem ⟨1, "G1", [⟨10, [⟨100, 1000⟩, ⟨101, 1001⟩]⟩]⟩,
        volItem ⟨10, [⟨100, 1000⟩, ⟨101, 1001⟩]⟩]).card =
      (output_handles [groupItem ⟨1, "G1", [⟨10, [⟨100, 1000⟩, ⟨101, 1001⟩]⟩]⟩]).card :=
  ⟨List.mem_singleton.mpr rfl,
    group_and_own_volume_no_double_count ⟨1, "G1", [⟨10, [⟨100, 1000⟩, ⟨101, 1001⟩]⟩]⟩
      ⟨10, [⟨100, 1000⟩, ⟨101, 1001⟩]⟩ (List.mem_singleton.mpr rfl)⟩

/-- C4: the tree built for a Model has exactly the three top-level category
nodes "Groups", "Volumes" and "Surfaces"; beneath them every Group (fully
expanded through its Volumes to their Surfaces), every top-level Volume with
its Surfaces, and every top-level Surface appears, in the Model's iteration
order, and every node's label is the deterministic string combining entity
kind, identifier and (for Groups) name. -/
theorem tree_structure_complete (m : DAGModel) :
    (buildTree m).map TreeNode.label = ["Groups", "Volumes", "Surfaces"] ∧
    (buildTree m).map TreeNode.children =
      [m.groups.map groupItem, m.volumes.map volItem, m.surfaces.map surfItem] ∧
    (∀ g : Group, (groupItem g).label = "Group " ++ toString g.id ++ ": " ++ g.name ∧
      (groupItem g).children = g.volumes.map volItem) ∧
    (∀ v : Volume, (volItem v).label = "Volume " ++ toString v.id ∧
      (volItem v).children = v.surfaces.map surfItem) ∧
    (∀ s : Surface, (surfItem s).label = "Surface " ++ s.str ∧
      (surfItem s).children = []) := by
  refine ⟨rfl, rfl, fun g => ⟨rfl, rfl⟩, fun v => ⟨rfl, rfl⟩, fun s => ⟨rfl, rfl⟩⟩

/-- C5: `populate_tree` is idempotent on the viewer state: building the tree
twice for the same Model yields the identical tree (same labels, node count
and order), because each build replaces the previous tree instead of
appending to it. -/
theorem populate_tree_idempotent (st : ViewerState) :
    populate_tree (populate_tree st) = populate_tree st := by
  cases st with
  | mk dm t en => cases dm <;> rfl

/-- C6: a failed load propagates the error to the caller and leaves the whole
viewer state — the previously loaded Model and the displayed tree included —
unchanged. -/
theorem load_failure_leaves_state_unchanged (st : ViewerState) (e : LoadError) :
    load_from_file st (.error e) = (st, some e) := rfl

/-- C7: for every state with a loaded Model, reset discards the Model, clears
the tree to zero top-level nodes, and disables the export action. -/
theorem reset_discards_model_and_clears (st : ViewerState)
    (_h : st.dag_model.isSome = true) :
    (reset_view st).dag_model = none ∧ (reset_view st).tree.length = 0 ∧
      (reset_view st).exportEnabled = false :=
  ⟨rfl, rfl, rfl⟩

/-- Closed instance of C7 at a concrete loaded state. -/
theorem reset_discards_model_and_clears_witness :
    ((ViewerState.mk (some (DAGModel.mk [] [] [])) [] true).dag_model.isSome = true) ∧
    ((reset_view (ViewerState.mk (some (DAGModel.mk [] [] [])) [] true)).dag_model = none ∧
      (reset_view (ViewerState.mk (some (DAGModel.mk [] [] [])) [] true)).tree.length = 0 ∧
      (reset_view (ViewerState.mk (some (DAGModel.mk [] [] [])) [] true)).exportEnabled = false) :=
  ⟨rfl, reset_discards_model_and_clears
    (ViewerState.mk (some (DAGModel.mk [] [] [])) [] true) rfl⟩

/-- C8 (amended): when the selection is empty, resolution produces the empty
handle set and export returns without invoking the writer. (As the
counterexample shows, the guard tests only selection emptiness, so the writer
can still receive zero handles from a non-empty selection of category nodes.) -/
theorem empty_selection_export_noop (dialogResult : Option String) :
    output_handles [] = ∅ ∧ export_selected_entities [] dialogResult = none :=
  ⟨rfl, rfl⟩

/-- C8 counterexample: the writer is not "never invoked with zero handles":
selecting only the "Groups" category node (a non-empty selection) and
confirming the save dialog invokes the writer with an empty handle set. -/
theorem writer_invoked_with_zero_handles :
    export_selected_entities [TreeNode.mk "Groups" none []] (some "out.vtk") =
      some (WriteCall.mk "out.vtk" ∅) ∧ (∅ : Finset Nat).card = 0 :=
  ⟨rfl, rfl⟩

/-- C9: after a selection-change notification, the export action is enabled
exactly when at least one tree node is selected. -/
theorem export_enabled_iff_selection_nonempty (st : ViewerState)
    (selected : List TreeNode) :
    (update_export_button_state st selected).exportEnabled = true ↔
      selected ≠ [] := by
  cases selected <;> simp [update_export_button_state]

/-- C10: a selected category node — one carrying no back-referenced entity —
contributes no handles to the resolved export set: dropping it from any
selection leaves the result unchanged, and alone it resolves to the empty
set. -/
theorem category_node_contributes_nothing (l : String) (c : List TreeNode)
    (selected : List TreeNode) :
    output_handles (TreeNode.mk l none c :: selected) = output_handles selected ∧
      output_handles [TreeNode.mk l none c] = ∅ := by
  constructor
  · simp [output_handles, surfaces_out_cons, TreeNode.data, contributed]
  · rfl

end Viewer
